import Mathlib

/-!
Shallow embedding of `src/components/AddressForm.tsx` from the
one-click-address-book repository, together with models of the RUT
formatter/validator helpers (`@/lib/format-rut`), whose source file is not
part of the repository snapshot and is therefore modelled from the spec.
-/

set_option autoImplicit false

namespace AddressBook

/-! ### Identifier formatter and validator -/

/-- A character kept by the identifier helpers: a digit or the letter k/K. -/
def isRutChar (c : Char) : Bool := c.isDigit || c == 'k' || c == 'K'

/-- Strip every character that is not a digit or k/K. -/
def cleanRUT (l : List Char) : List Char := l.filter isRutChar

/-- Formatter core on the reversed cleaned character list: the head is the
check character, the tail is the reversed body. -/
def formatRUTRev (r : List Char) : List Char :=
  match r with
  | [] => []
  | [d] => [d]
  | d :: bodyRev => bodyRev.reverse ++ ['-', d]

/-- Modelled from the spec: `formatRUT` (from the missing `@/lib/format-rut`
module) strips all characters except digits and k/K and inserts exactly one
hyphen immediately before the final check character; empty input yields
empty output. -/
def formatRUT (s : String) : String :=
  String.mk (formatRUTRev (cleanRUT s.data).reverse)

/-- Weighted digit sum with weights cycling 2..7, starting from the least
significant digit (the list is the reversed body). -/
def rutSum : List Char → Nat → Nat
  | [], _ => 0
  | d :: ds, w => (d.toNat - '0'.toNat) * w + rutSum ds (if w == 7 then 2 else w + 1)

/-- The expected check character from the weighted sum: `11 - sum % 11`,
with 11 mapped to '0' and 10 mapped to 'K'. -/
def rutExpectedChar (sum : Nat) : Char :=
  if 11 - sum % 11 == 11 then '0'
  else if 11 - sum % 11 == 10 then 'K'
  else Char.ofNat ('0'.toNat + (11 - sum % 11))

/-- Modelled from the spec: `isValidRUT` (from the missing
`@/lib/format-rut` module) computes the weighted-sum checksum over the body
digits and compares it case-insensitively to the supplied check character;
empty or malformed input is invalid (`false`), never an error. -/
def isValidRUT (s : String) : Bool :=
  match (cleanRUT s.data).reverse with
  | [] => false
  | [_] => false
  | dv :: bodyRev =>
    bodyRev.all Char.isDigit && (dv.toUpper == rutExpectedChar (rutSum bodyRev 2))

/-! ### Data model of the form -/

/-- The category enumeration from `AddressForm.tsx` lines 38-46. -/
inductive Category where
  | casa | trabajo | vecino | amigo | familiares | conserje | otro
deriving DecidableEq, Repr

/-- The optional pre-fill record (`initialData` prop), lines 21-35. -/
structure InitialData where
  id : String
  label : String
  street : String
  city : String
  state : String
  zip_code : String
  country : String
  is_default : Bool
  category : Category
  email : Option String
  phone : Option String
  identification : Option String
  full_name : Option String
deriving DecidableEq, Repr

/-- The field state of the component (the `useState` hooks, lines 61-74). -/
structure FormState where
  loading : Bool
  fullName : String
  identification : String
  email : String
  phone : String
  country : String
  region : String
  city : String
  zipCode : String
  street : String
  label : String
  isDefault : Bool
  category : Category
  selectedCategory : Category
deriving DecidableEq, Repr

/-- JavaScript `a || b` on strings: empty string is falsy. -/
def orDefault (s d : String) : String := if s = "" then d else s

/-- Initial field state built from the optional pre-fill record
(lines 61-74): each field is `initialData?.f || default`. -/
def initState (initialData : Option InitialData) : FormState :=
  match initialData with
  | none =>
    { loading := false, fullName := "", identification := "", email := "",
      phone := "", country := "CL", region := "", city := "", zipCode := "",
      street := "", label := "", isDefault := false, category := .otro,
      selectedCategory := .otro }
  | some i =>
    { loading := false
      fullName := i.full_name.getD ""
      identification := i.identification.getD ""
      email := i.email.getD ""
      phone := i.phone.getD ""
      country := orDefault i.country "CL"
      region := i.state
      city := i.city
      zipCode := i.zip_code
      street := i.street
      label := i.label
      isDefault := i.is_default
      category := i.category
      selectedCategory := i.category }

/-- The record sent to the persistence API (lines 98-112). -/
structure AddressData where
  label : String
  street : String
  city : String
  state : String
  zip_code : String
  country : String
  is_default : Bool
  user_id : String
  category : Category
  email : String
  phone : String
  identification : String
  full_name : String
deriving DecidableEq, Repr

/-- Observable effects of one submission, in order: persistence calls,
toast notifications (`destructive` is the error variant) and the
`onSuccess` completion callback. -/
inductive Event where
  | insertAddr (rec : AddressData)
  | updateAddr (rec : AddressData) (id : String)
  | toast (title description : String) (destructive : Bool)
  | onSuccess
deriving DecidableEq, Repr

/-- Environment of one submission: the resolved auth user
(`supabase.auth.getUser`) and the error outcomes the persistence calls
would return. -/
structure Env where
  user : Option String
  insertError : Option String
  updateError : Option String
deriving DecidableEq, Repr

/-- The `addressData` record literal of lines 98-112 in the "CL" branch,
where `state` is the region field of the component itself. -/
def clRecord (st : FormState) (uid : String) : AddressData :=
  { label := st.label, street := st.street, city := st.city,
    state := st.region, zip_code := st.zipCode, country := st.country,
    is_default := st.isDefault, user_id := uid, category := st.category,
    email := st.email, phone := st.phone,
    identification := st.identification, full_name := st.fullName }

/-- Constructing `addressData` (lines 98-112).  In the non-"CL" branch the
source reads the undeclared identifier `state`, which at run time raises a
ReferenceError before any persistence call; modelled as `Except.error`. -/
def buildAddressData (st : FormState) (uid : String) : Except String AddressData :=
  if st.country = "CL" then Except.ok (clRecord st uid)
  else Except.error "state is not defined"

/-- The `try` block of `handleSubmit` (lines 85-137): the events emitted and
either normal completion (`.ok`, also for the validation early return) or a
thrown error message (`.error`). -/
def tryBody (initialData : Option InitialData) (env : Env) (st : FormState) :
    List Event × Except String Unit :=
  match env.user with
  | none => ([], Except.error "No se encontró usuario")
  | some uid =>
    if st.identification ≠ "" ∧ isValidRUT st.identification = false then
      ([Event.toast "Error" "El RUT ingresado no es válido" true], Except.ok ())
    else
      match buildAddressData st uid with
      | Except.error m => ([], Except.error m)
      | Except.ok rec =>
        match initialData with
        | some init =>
          match env.updateError with
          | some m => ([Event.updateAddr rec init.id], Except.error m)
          | none =>
            ([Event.updateAddr rec init.id,
              Event.toast "¡Dirección actualizada!"
                "La dirección se ha actualizado correctamente." false,
              Event.onSuccess], Except.ok ())
        | none =>
          match env.insertError with
          | some m => ([Event.insertAddr rec], Except.error m)
          | none =>
            ([Event.insertAddr rec,
              Event.toast "¡Dirección guardada!"
                "La dirección se ha guardado correctamente." false,
              Event.onSuccess], Except.ok ())

/-- `setLoading(true)` at the top of `handleSubmit` (line 83). -/
def submitStart (st : FormState) : FormState := { st with loading := true }

/-- The whole of `handleSubmit` (lines 81-147): set loading (the field
values captured by the closure are unaffected), run the try block, turn a
thrown error into a destructive toast (`catch`), and reset loading
(`finally`). Returns the final field state and the event trace. -/
def handleSubmit (initialData : Option InitialData) (env : Env) (st : FormState) :
    FormState × List Event :=
  let r := tryBody initialData env st
  let evs :=
    match r.2 with
    | Except.ok _ => r.1
    | Except.error m => r.1 ++ [Event.toast "Error" m true]
  ({ submitStart st with loading := false }, evs)

/-- The error outcome of the persistence call a submission would make:
`update` when a pre-fill record is present, `insert` otherwise. -/
def persistenceError (initialData : Option InitialData) (env : Env) : Option String :=
  match initialData with
  | some _ => env.updateError
  | none => env.insertError

/-- The `disabled` attribute of the submit control (line 290). -/
def submitDisabled (st : FormState) : Bool := st.loading

/-- The change handler of the identification input (lines 76-79): strip every
character that is not a digit, k, K or a hyphen, then store the formatted
value. -/
def handleIdentificationChange (st : FormState) (raw : String) : FormState :=
  { st with identification :=
      formatRUT (String.mk (raw.data.filter fun c => isRutChar c || c == '-')) }

/-! ### Event classifiers -/

def isInsertEv : Event → Bool
  | Event.insertAddr _ => true
  | _ => false

def isUpdateEv : Event → Bool
  | Event.updateAddr _ _ => true
  | _ => false

def isOnSuccessEv : Event → Bool
  | Event.onSuccess => true
  | _ => false

/-! ### Concrete sample inputs used by witnesses and counterexamples -/

def blankSt : FormState := initState none

def noUserEnv : Env := { user := none, insertError := none, updateError := none }

def okEnv : Env := { user := some "u", insertError := none, updateError := none }

def failEnv : Env := { user := some "u", insertError := some "boom", updateError := none }

def sampleInit : InitialData :=
  { id := "addr-1", label := "Casa", street := "Calle 1", city := "Santiago",
    state := "RM", zip_code := "", country := "CL", is_default := false,
    category := Category.casa, email := none, phone := none,
    identification := none, full_name := none }

def arSt : FormState := { blankSt with country := "AR" }

def badRutSt : FormState := { blankSt with identification := "1-1" }

/-! ### Theorems -/

lemma isRutChar_of_mem_cleanRUT {c : Char} {l : List Char} (h : c ∈ cleanRUT l) :
    isRutChar c = true :=
  List.of_mem_filter h

lemma cleanRUT_formatRUTRev (r : List Char) (h : ∀ c ∈ r, isRutChar c = true) :
    cleanRUT (formatRUTRev r) = r.reverse := by
  match r with
  | [] => rfl
  | [d] =>
    simp [formatRUTRev, cleanRUT, List.filter, h d (List.mem_singleton.mpr rfl)]
  | d :: e :: body =>
    have hall : ∀ c ∈ (e :: body).reverse, isRutChar c = true := fun c hc =>
      h c (List.mem_cons_of_mem d (List.mem_reverse.mp hc))
    have hd : isRutChar d = true := h d (List.mem_cons_self d _)
    have hdash : isRutChar '-' = false := by decide
    show cleanRUT ((e :: body).reverse ++ ['-', d]) = (d :: e :: body).reverse
    rw [cleanRUT, List.filter_append, List.filter_eq_self.mpr hall,
      List.filter_cons, List.filter_cons, hdash, List.reverse_cons]
    simp [hd]

lemma cleanRUT_formatRUT (s : String) :
    cleanRUT (formatRUT s).data = cleanRUT s.data := by
  have h : ∀ c ∈ (cleanRUT s.data).reverse, isRutChar c = true := fun c hc =>
    isRutChar_of_mem_cleanRUT (List.mem_reverse.mp hc)
  show cleanRUT (formatRUTRev (cleanRUT s.data).reverse) = cleanRUT s.data
  rw [cleanRUT_formatRUTRev _ h, List.reverse_reverse]

/-- C7: the identifier formatter is idempotent and maps empty input to
empty output. -/
theorem formatRUT_idempotent :
    (∀ s : String, formatRUT (formatRUT s) = formatRUT s) ∧ formatRUT "" = "" := by
  constructor
  · intro s
    show String.mk (formatRUTRev (cleanRUT (formatRUT s).data).reverse) = formatRUT s
    rw [cleanRUT_formatRUT]
    rfl
  · rfl

/-- C8: the validator compares the supplied check character
case-insensitively with the cycling-weight checksum character, returns
false on empty input and on any input without digits, and is a total
boolean function. -/
theorem isValidRUT_spec :
    isValidRUT "" = false ∧
    (∀ s : String, (∀ c ∈ s.data, c.isDigit = false) → isValidRUT s = false) ∧
    isValidRUT "6-K" = true ∧ isValidRUT "6-k" = true ∧ isValidRUT "6-0" = false := by
  refine ⟨by decide, ?_, by decide, by decide, by decide⟩
  intro s h
  rcases hr : (cleanRUT s.data).reverse with _ | ⟨dv, _ | ⟨e, body⟩⟩
  · simp only [isValidRUT]
    rw [hr]
  · simp only [isValidRUT]
    rw [hr]
  · have he : e ∈ cleanRUT s.data := by
      rw [← List.mem_reverse, hr]
      exact List.mem_cons_of_mem dv (List.mem_cons_self e body)
    have hed : e.isDigit = false := h e (List.mem_filter.mp he).1
    simp only [isValidRUT]
    rw [hr]
    simp [List.all_cons, hed]

theorem isValidRUT_spec_witness : isValidRUT "kK" = false :=
  isValidRUT_spec.2.1 "kK" (by decide)

/-- C10: after a change event on the identification input, the stored value
is exactly the formatter applied to the raw input stripped of every
character that is not a digit, k, K or a hyphen. -/
theorem identification_change_stores_formatted (st : FormState) (raw : String) :
    (handleIdentificationChange st raw).identification =
      formatRUT (String.mk (raw.data.filter
        fun c => c.isDigit || c == 'k' || c == 'K' || c == '-')) := rfl

/-- C9: submission moves the form into the submitting state, in which the
submit control is disabled, and every completed submission ends with the
form back in the editing state; the initial state is editing. -/
theorem submit_state_machine (initialData : Option InitialData) (env : Env)
    (st : FormState) :
    (submitStart st).loading = true ∧
    submitDisabled (submitStart st) = true ∧
    (handleSubmit initialData env st).1.loading = false ∧
    (initState initialData).loading = false := by
  refine ⟨rfl, rfl, rfl, ?_⟩
  cases initialData <;> rfl

/-- C4: with no resolvable authenticated user the submission performs no
insert and no update and surfaces the unauthenticated condition as a
destructive error toast. -/
theorem submit_unauthenticated (initialData : Option InitialData) (env : Env)
    (st : FormState) (h : env.user = none) :
    Event.toast "Error" "No se encontró usuario" true ∈
      (handleSubmit initialData env st).2 ∧
    (handleSubmit initialData env st).2.countP isInsertEv = 0 ∧
    (handleSubmit initialData env st).2.countP isUpdateEv = 0 := by
  simp [handleSubmit, tryBody, h, isInsertEv, isUpdateEv]

theorem submit_unauthenticated_witness :
    noUserEnv.user = none ∧
    (Event.toast "Error" "No se encontró usuario" true ∈
        (handleSubmit none noUserEnv blankSt).2 ∧
      (handleSubmit none noUserEnv blankSt).2.countP isInsertEv = 0 ∧
      (handleSubmit none noUserEnv blankSt).2.countP isUpdateEv = 0) :=
  ⟨rfl, submit_unauthenticated none noUserEnv blankSt rfl⟩

lemma submit_success_inversion (initialData : Option InitialData) (env : Env)
    (st : FormState)
    (hsucc : Event.onSuccess ∈ (handleSubmit initialData env st).2) :
    ∃ uid, env.user = some uid ∧ st.country = "CL" ∧
      ((∃ init, initialData = some init ∧ env.updateError = none ∧
          (handleSubmit initialData env st).2 =
            [Event.updateAddr (clRecord st uid) init.id,
             Event.toast "¡Dirección actualizada!"
               "La dirección se ha actualizado correctamente." false,
             Event.onSuccess]) ∨
        (initialData = none ∧ env.insertError = none ∧
          (handleSubmit initialData env st).2 =
            [Event.insertAddr (clRecord st uid),
             Event.toast "¡Dirección guardada!"
               "La dirección se ha guardado correctamente." false,
             Event.onSuccess])) := by
  rcases huser : env.user with _ | uid
  · exfalso
    simp [handleSubmit, tryBody, huser] at hsucc
  · by_cases hval : st.identification ≠ "" ∧ isValidRUT st.identification = false
    · exfalso
      simp [handleSubmit, tryBody, huser, hval] at hsucc
    · by_cases hcl : st.country = "CL"
      · rcases initialData with _ | init
        · rcases hins : env.insertError with _ | m
          · refine ⟨uid, rfl, hcl, Or.inr ⟨rfl, rfl, ?_⟩⟩
            simp [handleSubmit, tryBody, buildAddressData, huser, hval, hcl, hins]
          · exfalso
            simp [handleSubmit, tryBody, buildAddressData, huser, hval, hcl, hins] at hsucc
        · rcases hupd : env.updateError with _ | m
          · refine ⟨uid, rfl, hcl, Or.inl ⟨init, rfl, rfl, ?_⟩⟩
            simp [handleSubmit, tryBody, buildAddressData, huser, hval, hcl, hupd]
          · exfalso
            simp [handleSubmit, tryBody, buildAddressData, huser, hval, hcl, hupd] at hsucc
      · exfalso
        simp [handleSubmit, tryBody, buildAddressData, huser, hval, hcl] at hsucc

/-- C1: every successful create-mode submission emits exactly one insert,
whose record carries the entered field values, and calls the completion
callback exactly once. -/
theorem create_success_inserts_once (initialData : Option InitialData)
    (env : Env) (st : FormState)
    (hmode : initialData = none)
    (hsucc : Event.onSuccess ∈ (handleSubmit initialData env st).2) :
    (handleSubmit initialData env st).2.countP isInsertEv = 1 ∧
    (handleSubmit initialData env st).2.countP isOnSuccessEv = 1 ∧
    ∃ rec : AddressData,
      Event.insertAddr rec ∈ (handleSubmit initialData env st).2 ∧
      rec.label = st.label ∧ rec.street = st.street ∧ rec.city = st.city ∧
      rec.state = st.region ∧ rec.zip_code = st.zipCode ∧
      rec.country = st.country ∧ rec.is_default = st.isDefault ∧
      rec.category = st.category ∧ rec.email = st.email ∧
      rec.phone = st.phone ∧ rec.identification = st.identification ∧
      rec.full_name = st.fullName := by
  subst hmode
  obtain ⟨uid, -, -, hcase⟩ := submit_success_inversion none env st hsucc
  rcases hcase with ⟨init, hinit, -, -⟩ | ⟨-, -, hevs⟩
  · cases hinit
  · rw [hevs]
    refine ⟨?_, ?_, clRecord st uid, List.mem_cons_self _ _,
      rfl, rfl, rfl, rfl, rfl, rfl, rfl, rfl, rfl, rfl, rfl, rfl⟩
    · simp [List.countP_cons, isInsertEv]
    · simp [List.countP_cons, isOnSuccessEv]

/-- C5: every successful submission performs exactly one persistence write,
update scoped to the original id in edit mode and insert in create mode,
never the other, then signals completion once and shows a success toast. -/
theorem success_single_write (initialData : Option InitialData) (env : Env)
    (st : FormState)
    (hsucc : Event.onSuccess ∈ (handleSubmit initialData env st).2) :
    (handleSubmit initialData env st).2.countP isOnSuccessEv = 1 ∧
    (∃ t d, Event.toast t d false ∈ (handleSubmit initialData env st).2) ∧
    (∀ init, initialData = some init →
      (handleSubmit initialData env st).2.countP isUpdateEv = 1 ∧
      (handleSubmit initialData env st).2.countP isInsertEv = 0 ∧
      ∃ rec, Event.updateAddr rec init.id ∈ (handleSubmit initialData env st).2) ∧
    (initialData = none →
      (handleSubmit initialData env st).2.countP isInsertEv = 1 ∧
      (handleSubmit initialData env st).2.countP isUpdateEv = 0) := by
  obtain ⟨uid, -, -, hcase⟩ := submit_success_inversion initialData env st hsucc
  rcases hcase with ⟨init, hinit, -, hevs⟩ | ⟨hnone, -, hevs⟩
  · rw [hevs]
    refine ⟨by simp [List.countP_cons, isOnSuccessEv],
      ⟨"¡Dirección actualizada!", "La dirección se ha actualizado correctamente.",
        by simp⟩, ?_, ?_⟩
    · intro init' hinit'
      have hii : init' = init := by
        rw [hinit] at hinit'
        exact (Option.some.inj hinit').symm
      subst hii
      exact ⟨by simp [List.countP_cons, isUpdateEv],
        by simp [List.countP_cons, isInsertEv],
        clRecord st uid, List.mem_cons_self _ _⟩
    · intro hn
      rw [hinit] at hn
      cases hn
  · rw [hevs]
    refine ⟨by simp [List.countP_cons, isOnSuccessEv],
      ⟨"¡Dirección guardada!", "La dirección se ha guardado correctamente.",
        by simp⟩, ?_, ?_⟩
    · intro init' hinit'
      rw [hnone] at hinit'
      cases hinit'
    · intro hn
      exact ⟨by simp [List.countP_cons, isInsertEv],
        by simp [List.countP_cons, isUpdateEv]⟩

lemma rutCheckPasses {st : FormState}
    (hok : st.identification = "" ∨ isValidRUT st.identification = true) :
    ¬(st.identification ≠ "" ∧ isValidRUT st.identification = false) := by
  intro hc
  rcases hok with h | h
  · exact hc.1 h
  · rw [hc.2] at h
    cases h

theorem create_success_inserts_once_witness :
    (none : Option InitialData) = none ∧
    Event.onSuccess ∈ (handleSubmit none okEnv blankSt).2 ∧
    (handleSubmit none okEnv blankSt).2.countP isInsertEv = 1 :=
  ⟨rfl, by decide,
    (create_success_inserts_once none okEnv blankSt rfl (by decide)).1⟩

theorem success_single_write_witness :
    Event.onSuccess ∈ (handleSubmit (some sampleInit) okEnv blankSt).2 ∧
    (handleSubmit (some sampleInit) okEnv blankSt).2.countP isOnSuccessEv = 1 :=
  ⟨by decide,
    (success_single_write (some sampleInit) okEnv blankSt (by decide)).1⟩

/-- C3 (amended): with a resolvable authenticated user, a non-empty
identification that fails the validator aborts the submission with the
validation toast and performs no write. -/
theorem invalid_rut_aborts (initialData : Option InitialData) (env : Env)
    (st : FormState) (uid : String)
    (huser : env.user = some uid)
    (hne : st.identification ≠ "")
    (hbad : isValidRUT st.identification = false) :
    (handleSubmit initialData env st).2 =
      [Event.toast "Error" "El RUT ingresado no es válido" true] ∧
    (handleSubmit initialData env st).2.countP isInsertEv = 0 ∧
    (handleSubmit initialData env st).2.countP isUpdateEv = 0 ∧
    Event.onSuccess ∉ (handleSubmit initialData env st).2 := by
  have hval : st.identification ≠ "" ∧ isValidRUT st.identification = false :=
    ⟨hne, hbad⟩
  simp [handleSubmit, tryBody, huser, hval, isInsertEv, isUpdateEv]

theorem invalid_rut_claim_counterexample :
    badRutSt.identification ≠ "" ∧
    isValidRUT badRutSt.identification = false ∧
    Event.toast "Error" "El RUT ingresado no es válido" true ∉
      (handleSubmit none noUserEnv badRutSt).2 := by decide

theorem invalid_rut_aborts_witness :
    okEnv.user = some "u" ∧ badRutSt.identification ≠ "" ∧
    isValidRUT badRutSt.identification = false ∧
    (handleSubmit none okEnv badRutSt).2 =
      [Event.toast "Error" "El RUT ingresado no es válido" true] :=
  ⟨rfl, by decide, by decide,
    (invalid_rut_aborts none okEnv badRutSt "u" rfl (by decide) (by decide)).1⟩

/-- C2 (amended): with a resolvable authenticated user and an empty or
valid identification, a submission whose country is not "CL" fails while
constructing the address record (the undeclared `state` identifier), the
thrown error is surfaced as a destructive toast, and no insert or update
is performed. -/
theorem nonCL_build_throws (initialData : Option InitialData) (env : Env)
    (st : FormState) (uid : String)
    (huser : env.user = some uid)
    (hok : st.identification = "" ∨ isValidRUT st.identification = true)
    (hcl : st.country ≠ "CL") :
    buildAddressData st uid = Except.error "state is not defined" ∧
    (handleSubmit initialData env st).2 =
      [Event.toast "Error" "state is not defined" true] ∧
    (handleSubmit initialData env st).2.countP isInsertEv = 0 ∧
    (handleSubmit initialData env st).2.countP isUpdateEv = 0 := by
  have hval := rutCheckPasses hok
  refine ⟨by simp [buildAddressData, hcl], ?_⟩
  simp [handleSubmit, tryBody, buildAddressData, huser, hval, hcl,
    isInsertEv, isUpdateEv]

theorem nonCL_claim_counterexample :
    arSt.country ≠ "CL" ∧
    Event.toast "Error" "state is not defined" true ∉
      (handleSubmit none noUserEnv arSt).2 ∧
    Event.toast "Error" "No se encontró usuario" true ∈
      (handleSubmit none noUserEnv arSt).2 := by decide

theorem nonCL_build_throws_witness :
    okEnv.user = some "u" ∧
    (arSt.identification = "" ∨ isValidRUT arSt.identification = true) ∧
    arSt.country ≠ "CL" ∧
    (handleSubmit none okEnv arSt).2 =
      [Event.toast "Error" "state is not defined" true] :=
  ⟨rfl, Or.inl rfl, by decide,
    (nonCL_build_throws none okEnv arSt "u" rfl (Or.inl rfl) (by decide)).2.1⟩

/-- C6: a failing persistence call surfaces the failure message as a
destructive toast, never calls the completion callback, leaves every
entered field value unchanged and returns the form to the editing state. -/
theorem persistence_failure_preserves_state (initialData : Option InitialData)
    (env : Env) (st : FormState) (uid m : String)
    (huser : env.user = some uid)
    (hok : st.identification = "" ∨ isValidRUT st.identification = true)
    (hcl : st.country = "CL")
    (hfail : persistenceError initialData env = some m) :
    Event.toast "Error" m true ∈ (handleSubmit initialData env st).2 ∧
    Event.onSuccess ∉ (handleSubmit initialData env st).2 ∧
    (handleSubmit initialData env st).1 = { st with loading := false } ∧
    (handleSubmit initialData env st).1.fullName = st.fullName ∧
    (handleSubmit initialData env st).1.identification = st.identification ∧
    (handleSubmit initialData env st).1.email = st.email ∧
    (handleSubmit initialData env st).1.phone = st.phone ∧
    (handleSubmit initialData env st).1.country = st.country ∧
    (handleSubmit initialData env st).1.region = st.region ∧
    (handleSubmit initialData env st).1.city = st.city ∧
    (handleSubmit initialData env st).1.zipCode = st.zipCode ∧
    (handleSubmit initialData env st).1.street = st.street ∧
    (handleSubmit initialData env st).1.label = st.label ∧
    (handleSubmit initialData env st).1.isDefault = st.isDefault ∧
    (handleSubmit initialData env st).1.category = st.category ∧
    (handleSubmit initialData env st).1.loading = false := by
  have hval := rutCheckPasses hok
  rcases initialData with _ | init
  · simp only [persistenceError] at hfail
    refine ⟨?_, ?_, rfl, rfl, rfl, rfl, rfl, rfl, rfl, rfl, rfl, rfl, rfl,
      rfl, rfl, rfl⟩ <;>
      simp [handleSubmit, tryBody, buildAddressData, huser, hval, hcl, hfail]
  · simp only [persistenceError] at hfail
    refine ⟨?_, ?_, rfl, rfl, rfl, rfl, rfl, rfl, rfl, rfl, rfl, rfl, rfl,
      rfl, rfl, rfl⟩ <;>
      simp [handleSubmit, tryBody, buildAddressData, huser, hval, hcl, hfail]

theorem persistence_failure_preserves_state_witness :
    failEnv.user = some "u" ∧
    (blankSt.identification = "" ∨ isValidRUT blankSt.identification = true) ∧
    blankSt.country = "CL" ∧
    persistenceError none failEnv = some "boom" ∧
    Event.toast "Error" "boom" true ∈ (handleSubmit none failEnv blankSt).2 :=
  ⟨rfl, Or.inl rfl, rfl, rfl,
    (persistence_failure_preserves_state none failEnv blankSt "u" "boom"
      rfl (Or.inl rfl) rfl rfl).1⟩

end AddressBook
